import Mathlib

/-!
Shallow embedding of the furniture catalog-and-cart service
(`ikea_furniture.py` data layer and `main.py` API endpoints).

Conventions of the embedding:
* Python `float` prices/weights are modelled as `Rat` (exact rationals);
  the claims under study involve only sums, products and comparisons.
* Python `date` values are modelled as `Int` day numbers; `isoformat()`
  becomes `toString`.
* The relational store is a record of lists, one per table, with an
  explicit auto-increment counter for the tables whose row creation the
  claims exercise; `session.get(Model, pk)` becomes `List.find?` on the
  id field.
* JSON dictionaries (the `furniture_data` snapshot column) are modelled
  as association lists of string keys and a small JSON-value type;
  `dict.get(key, default)` becomes lookup with a default.
* FastAPI's `HTTPException(404, ...)` / `HTTPException(400, ...)` become
  an explicit result type `ApiResult` with `notFound` / `badRequest`
  errors.
-/

/-- A JSON value as stored in the `furniture_data` snapshot column.
Python ints and floats both land in `jnum`. -/
inductive JVal where
  | jnum (q : Rat)
  | jstr (s : String)
  | jbool (b : Bool)
deriving DecidableEq

/-- A JSON object: the serialized dictionary built by
`ShoppingCart.add_item` (`ikea_furniture.py` lines 100-136). -/
def JObj : Type := List (String × JVal)

instance : DecidableEq JObj := inferInstanceAs (DecidableEq (List (String × JVal)))

/-- `json.loads(item.furniture_data).get(k, 0.0)` specialised to the
numeric fields the code reads (`price`).  The snapshots written by
`add_item` always store a number under these keys; a non-numeric value
(which would make Python's later multiplication raise) also falls back
to `0` here, and a missing key yields the Python default `0.0`. -/
def getNumOr0 (o : JObj) (k : String) : Rat :=
  match o.find? (fun kv => kv.1 == k) with
  | some (_, JVal.jnum q) => q
  | some _ => 0
  | none => 0

/-- `json.loads(item.furniture_data).get(k, d)` specialised to the
string fields the code reads (`name`, default `"Unknown"`). -/
def getStrOr (o : JObj) (k : String) (d : String) : String :=
  match o.find? (fun kv => kv.1 == k) with
  | some (_, JVal.jstr s) => s
  | some _ => d
  | none => d

/-- `IkeaSofa` (`ikea_furniture.py` lines 38-43): the common
`IkeaFurniture` fields plus the sofa-specific ones, with the primary
key `id`. -/
structure Sofa where
  id : Int
  name : String
  price : Rat
  color : String
  material : String
  weight_kg : Rat
  date_added : Int
  in_stock : Bool
  seats : Int
  has_sleeper : Bool
  fabric_type : String
deriving DecidableEq

/-- `IkeaDiningTable` (`ikea_furniture.py` lines 46-51). -/
structure DiningTable where
  id : Int
  name : String
  price : Rat
  color : String
  material : String
  weight_kg : Rat
  date_added : Int
  in_stock : Bool
  seats : Int
  shape : String
  extendable : Bool
deriving DecidableEq

/-- `IkeaMatress` (`ikea_furniture.py` lines 54-59); the source spells
the class and its tag "matress". -/
structure Mattress where
  id : Int
  name : String
  price : Rat
  color : String
  material : String
  weight_kg : Rat
  date_added : Int
  in_stock : Bool
  size : String
  firmness : String
  thickness_cm : Rat
deriving DecidableEq

/-- `ShoppingCart` row (`ikea_furniture.py` lines 76-81). -/
structure Cart where
  id : Int
  created_date : Int
  customer_name : String
  customer_email : Option String
deriving DecidableEq

/-- `CartItem` row (`ikea_furniture.py` lines 62-73): the
`furniture_data` column holds the serialized snapshot. -/
structure CartItem where
  id : Int
  cart_id : Int
  furniture_type : String
  furniture_id : Int
  quantity : Int
  furniture_data : JObj
deriving DecidableEq

/-- The relational store: one list per table, plus auto-increment
counters for the two tables whose inserts the claims exercise
(`cartitem` and `ikeasofa`). -/
structure DB where
  sofas : List Sofa
  dtables : List DiningTable
  mattresses : List Mattress
  carts : List Cart
  cartItems : List CartItem
  nextCartItemId : Int
  nextSofaId : Int
deriving DecidableEq

/-- The error half of `HTTPException`: 404 (`notFound`) and 400
(`badRequest`), carrying the `detail` message. -/
inductive ApiError where
  | notFound (msg : String)
  | badRequest (msg : String)
deriving DecidableEq

/-- Outcome of one endpoint call. -/
inductive ApiResult (α : Type) where
  | ok (val : α)
  | err (e : ApiError)
deriving DecidableEq

/-- Python's `str.capitalize()`: first character uppercased, the rest
lowercased (used in the add-item Not-Found message). -/
def pyCapitalize (s : String) : String :=
  match s.data with
  | [] => ""
  | c :: cs => String.mk (c.toUpper :: cs.map Char.toLower)

/-- The snapshot dictionary `add_item` builds for a sofa
(`ikea_furniture.py` lines 100-118): common fields then the
sofa-specific ones. -/
def sofaSnapshot (f : Sofa) : JObj :=
  [("id", JVal.jnum f.id),
   ("name", JVal.jstr f.name),
   ("price", JVal.jnum f.price),
   ("color", JVal.jstr f.color),
   ("material", JVal.jstr f.material),
   ("weight_kg", JVal.jnum f.weight_kg),
   ("in_stock", JVal.jbool f.in_stock),
   ("date_added", JVal.jstr (toString f.date_added)),
   ("seats", JVal.jnum f.seats),
   ("has_sleeper", JVal.jbool f.has_sleeper),
   ("fabric_type", JVal.jstr f.fabric_type)]

/-- The snapshot dictionary for a dining table
(`ikea_furniture.py` lines 119-124). -/
def tableSnapshot (f : DiningTable) : JObj :=
  [("id", JVal.jnum f.id),
   ("name", JVal.jstr f.name),
   ("price", JVal.jnum f.price),
   ("color", JVal.jstr f.color),
   ("material", JVal.jstr f.material),
   ("weight_kg", JVal.jnum f.weight_kg),
   ("in_stock", JVal.jbool f.in_stock),
   ("date_added", JVal.jstr (toString f.date_added)),
   ("seats", JVal.jnum f.seats),
   ("shape", JVal.jstr f.shape),
   ("extendable", JVal.jbool f.extendable)]

/-- The snapshot dictionary for a mattress
(`ikea_furniture.py` lines 125-130). -/
def mattressSnapshot (f : Mattress) : JObj :=
  [("id", JVal.jnum f.id),
   ("name", JVal.jstr f.name),
   ("price", JVal.jnum f.price),
   ("color", JVal.jstr f.color),
   ("material", JVal.jstr f.material),
   ("weight_kg", JVal.jnum f.weight_kg),
   ("in_stock", JVal.jbool f.in_stock),
   ("date_added", JVal.jstr (toString f.date_added)),
   ("size", JVal.jstr f.size),
   ("firmness", JVal.jstr f.firmness),
   ("thickness_cm", JVal.jnum f.thickness_cm)]

/-- `ShoppingCart.get_items` (`ikea_furniture.py` line 153):
all `CartItem` rows whose `cart_id` matches. -/
def getItems (db : DB) (cart_id : Int) : List CartItem :=
  db.cartItems.filter (fun it => it.cart_id == cart_id)

/-- `ShoppingCart.calculate_total_price` (`ikea_furniture.py`
lines 155-158): sum of snapshot price times quantity over the cart's
items. -/
def calculateTotalPrice (db : DB) (cart_id : Int) : Rat :=
  ((getItems db cart_id).map
    (fun it => getNumOr0 it.furniture_data "price" * (it.quantity : Rat))).sum

/-- `ShoppingCart.calculate_total_quantity` (`ikea_furniture.py`
lines 160-163). -/
def calculateTotalQuantity (db : DB) (cart_id : Int) : Int :=
  ((getItems db cart_id).map (fun it => it.quantity)).sum

/-- The per-item payload returned by `add_item_to_cart` and
`update_cart_item` (`main.py` lines 384-392 and 429-437). -/
structure ItemResponse where
  id : Int
  furniture_type : String
  furniture_id : Int
  quantity : Int
  name : String
  price : Rat
  subtotal : Rat
deriving DecidableEq

/-- Builds the response dictionary of `add_item_to_cart` /
`update_cart_item` from a `CartItem` row: name and price read back out
of the JSON snapshot, subtotal = snapshot price times quantity. -/
def mkItemResponse (it : CartItem) : ItemResponse :=
  { id := it.id
    furniture_type := it.furniture_type
    furniture_id := it.furniture_id
    quantity := it.quantity
    name := getStrOr it.furniture_data "name" "Unknown"
    price := getNumOr0 it.furniture_data "price"
    subtotal := getNumOr0 it.furniture_data "price" * (it.quantity : Rat) }

/-- The furniture-type dispatch of `add_item_to_cart`
(`main.py` lines 366-377): `"sofa"`, `"dining_table"` and `"matress"`
(the source's spelling) look the record up in the matching table and
serialize it via `ShoppingCart.add_item`'s snapshot dictionary; an
unknown tag is a 400, a missing record a 404. -/
def resolveFurniture (db : DB) (ftype : String) (fid : Int) : ApiResult JObj :=
  if ftype == "sofa" then
    match db.sofas.find? (fun f => f.id == fid) with
    | some f => ApiResult.ok (sofaSnapshot f)
    | none => ApiResult.err (ApiError.notFound
        (pyCapitalize ftype ++ " with ID " ++ toString fid ++ " not found"))
  else if ftype == "dining_table" then
    match db.dtables.find? (fun f => f.id == fid) with
    | some f => ApiResult.ok (tableSnapshot f)
    | none => ApiResult.err (ApiError.notFound
        (pyCapitalize ftype ++ " with ID " ++ toString fid ++ " not found"))
  else if ftype == "matress" then
    match db.mattresses.find? (fun f => f.id == fid) with
    | some f => ApiResult.ok (mattressSnapshot f)
    | none => ApiResult.err (ApiError.notFound
        (pyCapitalize ftype ++ " with ID " ++ toString fid ++ " not found"))
  else
    ApiResult.err (ApiError.badRequest ("Invalid furniture type: " ++ ftype))

/-- `POST /carts/{cart_id}/items` = `add_item_to_cart`
(`main.py` lines 357-392) composed with `ShoppingCart.add_item`
(`ikea_furniture.py` lines 83-149): check the cart, resolve and
snapshot the furniture, insert a fresh `CartItem` row, and return the
item summary.  The Python default `quantity=1` is mirrored by the
optional argument. -/
def addItemToCart (db : DB) (cart_id : Int) (ftype : String) (fid : Int)
    (quantity : Int := 1) : ApiResult (DB × ItemResponse) :=
  match db.carts.find? (fun c => c.id == cart_id) with
  | none => ApiResult.err (ApiError.notFound "Shopping cart not found")
  | some _ =>
    match resolveFurniture db ftype fid with
    | ApiResult.err e => ApiResult.err e
    | ApiResult.ok fdata =>
      let item : CartItem :=
        { id := db.nextCartItemId
          cart_id := cart_id
          furniture_type := ftype
          furniture_id := fid
          quantity := quantity
          furniture_data := fdata }
      ApiResult.ok
        ({ db with
            cartItems := db.cartItems ++ [item]
            nextCartItemId := db.nextCartItemId + 1 },
         mkItemResponse item)

/-- `PUT /carts/{cart_id}/items/{item_id}` = `update_cart_item`
(`main.py` lines 408-437): 404 unless the cart exists and the item
exists and belongs to it; then overwrite `quantity` (no positivity
check) and return the summary with the stored snapshot price. -/
def updateCartItem (db : DB) (cart_id : Int) (item_id : Int) (quantity : Int) :
    ApiResult (DB × ItemResponse) :=
  match db.carts.find? (fun c => c.id == cart_id) with
  | none => ApiResult.err (ApiError.notFound "Shopping cart not found")
  | some _ =>
    match db.cartItems.find? (fun it => it.id == item_id) with
    | none => ApiResult.err (ApiError.notFound "Cart item not found")
    | some it =>
      if it.cart_id == cart_id then
        ApiResult.ok
          ({ db with
              cartItems := db.cartItems.map
                (fun j => if j.id == item_id then { j with quantity := quantity } else j) },
           mkItemResponse { it with quantity := quantity })
      else ApiResult.err (ApiError.notFound "Cart item not found")

/-- One line of the cart summary built by
`ShoppingCart.get_cart_summary` (`ikea_furniture.py` lines 170-178). -/
structure ItemDetail where
  itype : String
  name : String
  price : Rat
  quantity : Int
  subtotal : Rat
deriving DecidableEq

/-- The summary dictionary of `ShoppingCart.get_cart_summary`
(`ikea_furniture.py` lines 165-188). -/
structure CartSummary where
  customer_name : String
  customer_email : Option String
  items : List ItemDetail
  total_items : Int
  total_price : Rat
deriving DecidableEq

/-- `ShoppingCart.get_cart_summary` (`ikea_furniture.py`
lines 165-188). -/
def getCartSummary (db : DB) (cart : Cart) : CartSummary :=
  { customer_name := cart.customer_name
    customer_email := cart.customer_email
    items := (getItems db cart.id).map (fun it =>
      { itype := it.furniture_type
        name := getStrOr it.furniture_data "name" "Unknown"
        price := getNumOr0 it.furniture_data "price"
        quantity := it.quantity
        subtotal := getNumOr0 it.furniture_data "price" * (it.quantity : Rat) })
    total_items := calculateTotalQuantity db cart.id
    total_price := calculateTotalPrice db cart.id }

/-- `GET /carts/{cart_id}/items` = `get_cart_items`
(`main.py` lines 395-405): 404 for a missing cart, otherwise the cart
summary. -/
def getCartItems (db : DB) (cart_id : Int) : ApiResult CartSummary :=
  match db.carts.find? (fun c => c.id == cart_id) with
  | none => ApiResult.err (ApiError.notFound "Shopping cart not found")
  | some c => ApiResult.ok (getCartSummary db c)

/-- The response of `GET /carts/{cart_id}/total`
(`main.py` lines 472-477). -/
structure CartTotal where
  cart_id : Int
  customer_name : String
  total_price : Rat
  total_quantity : Int
deriving DecidableEq

/-- `GET /carts/{cart_id}/total` = `get_cart_total`
(`main.py` lines 460-477). -/
def getCartTotal (db : DB) (cart_id : Int) : ApiResult CartTotal :=
  match db.carts.find? (fun c => c.id == cart_id) with
  | none => ApiResult.err (ApiError.notFound "Shopping cart not found")
  | some c =>
    ApiResult.ok
      { cart_id := cart_id
        customer_name := c.customer_name
        total_price := calculateTotalPrice db cart_id
        total_quantity := calculateTotalQuantity db cart_id }

/-- `DELETE /carts/{cart_id}` = `delete_cart` (`main.py` lines 339-353):
404 for a missing cart; otherwise delete every `CartItem` row whose
`cart_id` matches (the explicit application-level cascade) and then the
cart row itself. -/
def deleteCart (db : DB) (cart_id : Int) : ApiResult (DB × String) :=
  match db.carts.find? (fun c => c.id == cart_id) with
  | none => ApiResult.err (ApiError.notFound "Shopping cart not found")
  | some _ =>
    ApiResult.ok
      ({ db with
          cartItems := db.cartItems.filter (fun it => !(it.cart_id == cart_id))
          carts := db.carts.filter (fun c => !(c.id == cart_id)) },
       "Shopping cart with ID " ++ toString cart_id ++ " deleted successfully")

/-- A `POST /sofas/` request body: the `IkeaSofa` payload with the
fields whose Python class declarations carry defaults made optional
(`date_added = date.today()` — a default value computed once when the
class is defined, i.e. at module import — `in_stock = True`,
`has_sleeper = False`).  `none` models a field omitted by the client. -/
structure SofaCreate where
  name : String
  price : Rat
  color : String
  material : String
  weight_kg : Rat
  date_added : Option Int := none
  in_stock : Option Bool := none
  seats : Int
  has_sleeper : Option Bool := none
  fabric_type : String
deriving DecidableEq

/-- `POST /sofas/` = `create_sofa` (`main.py` lines 42-48): insert the
payload as a row with a store-assigned id.  `classLoadDay` is the day
`date.today()` was evaluated when the `IkeaFurniture` class was
defined: an omitted `date_added` gets THAT day, not the day of the
request. -/
def createSofa (classLoadDay : Int) (db : DB) (p : SofaCreate) : DB × Sofa :=
  let s : Sofa :=
    { id := db.nextSofaId
      name := p.name
      price := p.price
      color := p.color
      material := p.material
      weight_kg := p.weight_kg
      date_added := p.date_added.getD classLoadDay
      in_stock := p.in_stock.getD true
      seats := p.seats
      has_sleeper := p.has_sleeper.getD false
      fabric_type := p.fabric_type }
  ({ db with sofas := db.sofas ++ [s], nextSofaId := db.nextSofaId + 1 }, s)

/-- `GET /sofas/{sofa_id}` = `read_sofa` (`main.py` lines 80-86). -/
def readSofa (db : DB) (sofa_id : Int) : ApiResult Sofa :=
  match db.sofas.find? (fun s => s.id == sofa_id) with
  | none => ApiResult.err (ApiError.notFound "Sofa not found")
  | some s => ApiResult.ok s

/-- A `PUT /sofas/{id}` body under `dict(exclude_unset=True)`
(`main.py` line 97): every field optional, `none` meaning the client
did not send it and the stored value is kept. -/
structure SofaUpdate where
  id : Option Int := none
  name : Option String := none
  price : Option Rat := none
  color : Option String := none
  material : Option String := none
  weight_kg : Option Rat := none
  date_added : Option Int := none
  in_stock : Option Bool := none
  seats : Option Int := none
  has_sleeper : Option Bool := none
  fabric_type : Option String := none
deriving DecidableEq

/-- The `setattr` loop of `update_sofa` (`main.py` lines 97-99): each
field present in the payload overwrites the stored one, absent fields
keep their prior values. -/
def applySofaUpdate (s : Sofa) (u : SofaUpdate) : Sofa :=
  { id := u.id.getD s.id
    name := u.name.getD s.name
    price := u.price.getD s.price
    color := u.color.getD s.color
    material := u.material.getD s.material
    weight_kg := u.weight_kg.getD s.weight_kg
    date_added := u.date_added.getD s.date_added
    in_stock := u.in_stock.getD s.in_stock
    seats := u.seats.getD s.seats
    has_sleeper := u.has_sleeper.getD s.has_sleeper
    fabric_type := u.fabric_type.getD s.fabric_type }

/-- `PUT /sofas/{sofa_id}` = `update_sofa` (`main.py` lines 89-104). -/
def updateSofa (db : DB) (sofa_id : Int) (u : SofaUpdate) :
    ApiResult (DB × Sofa) :=
  match db.sofas.find? (fun s => s.id == sofa_id) with
  | none => ApiResult.err (ApiError.notFound "Sofa not found")
  | some s =>
    let s' := applySofaUpdate s u
    ApiResult.ok
      ({ db with sofas := db.sofas.map (fun t => if t.id == sofa_id then s' else t) }, s')

/-- A `PUT /dining-tables/{id}` body under `exclude_unset`
(`main.py` line 178). -/
structure TableUpdate where
  id : Option Int := none
  name : Option String := none
  price : Option Rat := none
  color : Option String := none
  material : Option String := none
  weight_kg : Option Rat := none
  date_added : Option Int := none
  in_stock : Option Bool := none
  seats : Option Int := none
  shape : Option String := none
  extendable : Option Bool := none
deriving DecidableEq

/-- The `setattr` loop of `update_dining_table`
(`main.py` lines 178-180). -/
def applyTableUpdate (s : DiningTable) (u : TableUpdate) : DiningTable :=
  { id := u.id.getD s.id
    name := u.name.getD s.name
    price := u.price.getD s.price
    color := u.color.getD s.color
    material := u.material.getD s.material
    weight_kg := u.weight_kg.getD s.weight_kg
    date_added := u.date_added.getD s.date_added
    in_stock := u.in_stock.getD s.in_stock
    seats := u.seats.getD s.seats
    shape := u.shape.getD s.shape
    extendable := u.extendable.getD s.extendable }

/-- `PUT /dining-tables/{table_id}` = `update_dining_table`
(`main.py` lines 170-185). -/
def updateDiningTable (db : DB) (table_id : Int) (u : TableUpdate) :
    ApiResult (DB × DiningTable) :=
  match db.dtables.find? (fun s => s.id == table_id) with
  | none => ApiResult.err (ApiError.notFound "Dining table not found")
  | some s =>
    let s' := applyTableUpdate s u
    ApiResult.ok
      ({ db with dtables := db.dtables.map (fun t => if t.id == table_id then s' else t) }, s')

/-- A `PUT /mattresses/{id}` body under `exclude_unset`
(`main.py` line 259). -/
structure MattressUpdate where
  id : Option Int := none
  name : Option String := none
  price : Option Rat := none
  color : Option String := none
  material : Option String := none
  weight_kg : Option Rat := none
  date_added : Option Int := none
  in_stock : Option Bool := none
  size : Option String := none
  firmness : Option String := none
  thickness_cm : Option Rat := none
deriving DecidableEq

/-- The `setattr` loop of `update_mattress`
(`main.py` lines 259-261). -/
def applyMattressUpdate (s : Mattress) (u : MattressUpdate) : Mattress :=
  { id := u.id.getD s.id
    name := u.name.getD s.name
    price := u.price.getD s.price
    color := u.color.getD s.color
    material := u.material.getD s.material
    weight_kg := u.weight_kg.getD s.weight_kg
    date_added := u.date_added.getD s.date_added
    in_stock := u.in_stock.getD s.in_stock
    size := u.size.getD s.size
    firmness := u.firmness.getD s.firmness
    thickness_cm := u.thickness_cm.getD s.thickness_cm }

/-- `PUT /mattresses/{mattress_id}` = `update_mattress`
(`main.py` lines 251-266). -/
def updateMattress (db : DB) (mattress_id : Int) (u : MattressUpdate) :
    ApiResult (DB × Mattress) :=
  match db.mattresses.find? (fun s => s.id == mattress_id) with
  | none => ApiResult.err (ApiError.notFound "Mattress not found")
  | some s =>
    let s' := applyMattressUpdate s u
    ApiResult.ok
      ({ db with mattresses := db.mattresses.map (fun t => if t.id == mattress_id then s' else t) }, s')

/-- The WHERE clause built by `read_sofas` (`main.py` lines 62-72).
`material` and the other string filters are guarded by Python
truthiness (`if material:`) — an empty string adds NO clause — while
the price bounds are guarded by `is not None`, so `0.0` DOES add its
clause. -/
def sofaRowPred (material : Option String) (min_price max_price : Option Rat)
    (has_sleeper : Option Bool) (s : Sofa) : Bool :=
  (match material with
   | none => true
   | some m => if m == "" then true else s.material == m) &&
  (match min_price with
   | none => true
   | some p => decide (p ≤ s.price)) &&
  (match max_price with
   | none => true
   | some p => decide (s.price ≤ p)) &&
  (match has_sleeper with
   | none => true
   | some b => s.has_sleeper == b)

/-- `GET /sofas/` = `read_sofas` (`main.py` lines 51-77): conditional
WHERE clauses, then `offset(skip).limit(limit)`. -/
def readSofas (db : DB) (skip : Nat := 0) (limit : Nat := 100)
    (material : Option String := none) (min_price : Option Rat := none)
    (max_price : Option Rat := none) (has_sleeper : Option Bool := none) :
    List Sofa :=
  (((db.sofas.filter (sofaRowPred material min_price max_price has_sleeper)).drop skip).take limit)

/-- The WHERE clause built by `read_dining_tables`
(`main.py` lines 143-153); `material` and `shape` are
truthiness-guarded, the price bounds `is not None`-guarded. -/
def tableRowPred (material : Option String) (min_price max_price : Option Rat)
    (shape : Option String) (extendable : Option Bool) (s : DiningTable) : Bool :=
  (match material with
   | none => true
   | some m => if m == "" then true else s.material == m) &&
  (match min_price with
   | none => true
   | some p => decide (p ≤ s.price)) &&
  (match max_price with
   | none => true
   | some p => decide (s.price ≤ p)) &&
  (match shape with
   | none => true
   | some m => if m == "" then true else s.shape == m) &&
  (match extendable with
   | none => true
   | some b => s.extendable == b)

/-- `GET /dining-tables/` = `read_dining_tables`
(`main.py` lines 129-158). -/
def readDiningTables (db : DB) (skip : Nat := 0) (limit : Nat := 100)
    (material : Option String := none) (min_price : Option Rat := none)
    (max_price : Option Rat := none) (shape : Option String := none)
    (extendable : Option Bool := none) : List DiningTable :=
  (((db.dtables.filter (tableRowPred material min_price max_price shape extendable)).drop skip).take limit)

/-- The WHERE clause built by `read_mattresses`
(`main.py` lines 224-234); `material`, `size` and `firmness` are
truthiness-guarded, the price bounds `is not None`-guarded. -/
def mattressRowPred (material : Option String) (min_price max_price : Option Rat)
    (size : Option String) (firmness : Option String) (s : Mattress) : Bool :=
  (match material with
   | none => true
   | some m => if m == "" then true else s.material == m) &&
  (match min_price with
   | none => true
   | some p => decide (p ≤ s.price)) &&
  (match max_price with
   | none => true
   | some p => decide (s.price ≤ p)) &&
  (match size with
   | none => true
   | some m => if m == "" then true else s.size == m) &&
  (match firmness with
   | none => true
   | some m => if m == "" then true else s.firmness == m)

/-- `GET /mattresses/` = `read_mattresses` (`main.py` lines 210-239). -/
def readMattresses (db : DB) (skip : Nat := 0) (limit : Nat := 100)
    (material : Option String := none) (min_price : Option Rat := none)
    (max_price : Option Rat := none) (size : Option String := none)
    (firmness : Option String := none) : List Mattress :=
  (((db.mattresses.filter (mattressRowPred material min_price max_price size firmness)).drop skip).take limit)

/-- Spec-side sofa filter predicate, following the spec's words: every
SUPPLIED filter imposes its constraint — supplied `material = m` means
`s.material = m`, with no special case for the empty string.  Written
for comparison with the code-side `sofaRowPred`. -/
def sofaSpecPred (material : Option String) (min_price max_price : Option Rat)
    (has_sleeper : Option Bool) (s : Sofa) : Bool :=
  (match material with
   | none => true
   | some m => s.material == m) &&
  (match min_price with
   | none => true
   | some p => decide (p ≤ s.price)) &&
  (match max_price with
   | none => true
   | some p => decide (s.price ≤ p)) &&
  (match has_sleeper with
   | none => true
   | some b => s.has_sleeper == b)

/-- Sample catalog record: a Leather sofa at price 500. -/
def sofa1 : Sofa :=
  { id := 1, name := "KIVIK", price := 500, color := "Gray", material := "Leather"
    weight_kg := 45, date_added := 0, in_stock := true
    seats := 3, has_sleeper := false, fabric_type := "Velvet" }

/-- Sample catalog record: a Wool sofa at price 100. -/
def sofa2 : Sofa :=
  { id := 2, name := "EKTORP", price := 100, color := "Blue", material := "Wool"
    weight_kg := 40, date_added := 0, in_stock := true
    seats := 2, has_sleeper := true, fabric_type := "Canvas" }

/-- Sample catalog record: a Leather sofa at price 250. -/
def sofa3 : Sofa :=
  { id := 3, name := "SODERHAMN", price := 250, color := "Beige", material := "Leather"
    weight_kg := 50, date_added := 0, in_stock := true
    seats := 4, has_sleeper := false, fabric_type := "Tweed" }

/-- Sample dining table. -/
def table7 : DiningTable :=
  { id := 7, name := "EKEDALEN", price := 200, color := "Oak", material := "Wood"
    weight_kg := 25, date_added := 0, in_stock := true
    seats := 4, shape := "Round", extendable := false }

/-- Sample mattress. -/
def mat5 : Mattress :=
  { id := 5, name := "HAUGESUND", price := 300, color := "White", material := "Spring"
    weight_kg := 15, date_added := 0, in_stock := true
    size := "Queen", firmness := "Medium", thickness_cm := 20 }

/-- Sample cart. -/
def cart1 : Cart :=
  { id := 1, created_date := 0, customer_name := "John Doe"
    customer_email := some "john@example.com" }

/-- A sample store: three sofas, one table, one mattress, one empty
cart. -/
def sampleDb : DB :=
  { sofas := [sofa1, sofa2, sofa3], dtables := [table7], mattresses := [mat5]
    carts := [cart1], cartItems := [], nextCartItemId := 10, nextSofaId := 4 }

/-- A line item for `sofa2` (snapshot price 100), quantity 1. -/
def itemA : CartItem :=
  { id := 10, cart_id := 1, furniture_type := "sofa", furniture_id := 2
    quantity := 1, furniture_data := sofaSnapshot sofa2 }

/-- A line item for `sofa3` (snapshot price 250), quantity 2. -/
def itemB : CartItem :=
  { id := 11, cart_id := 1, furniture_type := "sofa", furniture_id := 3
    quantity := 2, furniture_data := sofaSnapshot sofa3 }

/-- The sample store with two line items in cart 1. -/
def dbWithItems : DB :=
  { sampleDb with cartItems := [itemA, itemB], nextCartItemId := 12 }

/-- Reading `"price"` back out of a serialized sofa snapshot yields the
price the record had when the snapshot was taken. -/
theorem getNumOr0_sofaSnapshot (f : Sofa) :
    getNumOr0 (sofaSnapshot f) "price" = f.price := rfl

/-- `calculate_total_price` reads only the `cartitem` table. -/
theorem totalPrice_only_items (db db' : DB) (cart_id : Int)
    (h : db.cartItems = db'.cartItems) :
    calculateTotalPrice db cart_id = calculateTotalPrice db' cart_id := by
  unfold calculateTotalPrice getItems
  rw [h]

/-- `update_sofa` never touches the `cartitem` table. -/
theorem updateSofa_cartItems (db : DB) (sofa_id : Int) (u : SofaUpdate)
    (db' : DB) (s' : Sofa) (h : updateSofa db sofa_id u = ApiResult.ok (db', s')) :
    db'.cartItems = db.cartItems := by
  unfold updateSofa at h
  split at h
  · exact ApiResult.noConfusion h
  · simp only [ApiResult.ok.injEq, Prod.mk.injEq] at h
    obtain ⟨h1, _⟩ := h
    rw [← h1]

/-- C1 (Snapshot-price immutability): adding a sofa to a cart raises the
cart's total by the sofa's price AT ADD TIME times the quantity, the
returned line uses that snapshot price, and a later catalog update of
any sofa (in particular a price change) leaves every cart total
unchanged. -/
theorem C1_snapshot_price_immutable (db : DB) (cid fid q : Int) (s : Sofa)
    (db1 db2 : DB) (r : ItemResponse) (sid : Int) (u : SofaUpdate) (s2 : Sofa)
    (hs : db.sofas.find? (fun t => t.id == fid) = some s)
    (hadd : addItemToCart db cid "sofa" fid q = ApiResult.ok (db1, r))
    (hupd : updateSofa db1 sid u = ApiResult.ok (db2, s2)) :
    r.price = s.price ∧
    r.subtotal = s.price * (q : Rat) ∧
    calculateTotalPrice db1 cid = calculateTotalPrice db cid + s.price * (q : Rat) ∧
    calculateTotalPrice db2 cid = calculateTotalPrice db1 cid := by
  have hres : resolveFurniture db "sofa" fid = ApiResult.ok (sofaSnapshot s) := by
    unfold resolveFurniture
    rw [hs]
    rfl
  unfold addItemToCart at hadd
  split at hadd
  · exact ApiResult.noConfusion hadd
  · rw [hres] at hadd
    simp only [ApiResult.ok.injEq, Prod.mk.injEq] at hadd
    obtain ⟨hdb1, hr⟩ := hadd
    subst hdb1
    subst hr
    refine ⟨rfl, ?_, ?_, ?_⟩
    · simp [mkItemResponse, getNumOr0_sofaSnapshot]
    · simp [calculateTotalPrice, getItems, List.filter_append,
        getNumOr0_sofaSnapshot]
    · exact totalPrice_only_items db2 _ cid (updateSofa_cartItems _ sid u db2 s2 hupd)

/-- The line item created by adding `sofa1` (price 500) to cart 1. -/
def exItem : CartItem :=
  { id := 10, cart_id := 1, furniture_type := "sofa", furniture_id := 1
    quantity := 1, furniture_data := sofaSnapshot sofa1 }

/-- The sample store right after that add. -/
def exDb1 : DB :=
  { sampleDb with cartItems := [exItem], nextCartItemId := 11 }

/-- A PUT body setting only `price := 600`. -/
def upd600 : SofaUpdate := { price := some 600 }

/-- `sofa1` after the 500 → 600 price update. -/
def sofa600 : Sofa := applySofaUpdate sofa1 upd600

/-- The store after the add and then the price update. -/
def exDb2 : DB :=
  { exDb1 with sofas := [sofa600, sofa2, sofa3] }

/-- Witness for C1, the spec's scenario: create a sofa at price 500,
add it to a cart, update the sofa's price to 600 — the cart total still
reflects 500. -/
theorem C1_witness :
    ((mkItemResponse exItem).price = sofa1.price ∧
     (mkItemResponse exItem).subtotal = sofa1.price * ((1 : Int) : Rat) ∧
     calculateTotalPrice exDb1 1 = calculateTotalPrice sampleDb 1 + sofa1.price * ((1 : Int) : Rat) ∧
     calculateTotalPrice exDb2 1 = calculateTotalPrice exDb1 1) ∧
    calculateTotalPrice exDb2 1 = 500 ∧ sofa600.price = 600 :=
  ⟨C1_snapshot_price_immutable sampleDb 1 1 1 sofa1 exDb1 exDb2
      (mkItemResponse exItem) 1 upd600 sofa600
      (by decide) (by rfl) (by rfl),
   by norm_num [calculateTotalPrice, getItems, exDb2, exDb1, sampleDb, exItem,
     getNumOr0_sofaSnapshot, sofa1],
   by norm_num [sofa600, applySofaUpdate, upd600, sofa1]⟩

/-- C2: for an existing cart, `GET /carts/{id}/total` returns exactly
the sum over the cart's line items of snapshot price times quantity,
and the sum of the quantities; both totals are zero when the cart has
no items. -/
theorem C2_cart_totals (db : DB) (cid : Int) (c : Cart)
    (hc : db.carts.find? (fun x => x.id == cid) = some c) :
    getCartTotal db cid = ApiResult.ok
      { cart_id := cid
        customer_name := c.customer_name
        total_price := ((getItems db cid).map
          (fun it => getNumOr0 it.furniture_data "price" * (it.quantity : Rat))).sum
        total_quantity := ((getItems db cid).map (fun it => it.quantity)).sum } ∧
    (getItems db cid = [] →
      calculateTotalPrice db cid = 0 ∧ calculateTotalQuantity db cid = 0) := by
  constructor
  · simp [getCartTotal, hc, calculateTotalPrice, calculateTotalQuantity]
  · intro h
    unfold calculateTotalPrice calculateTotalQuantity
    rw [h]
    simp

/-- Witness for C2, the spec's example: items of snapshot price 100 and
250 with quantities 1 and 2 give total price 600 and total quantity 3. -/
theorem C2_witness :
    getCartTotal dbWithItems 1 = ApiResult.ok
      { cart_id := 1, customer_name := "John Doe", total_price := 600
        total_quantity := 3 } := by
  have h := (C2_cart_totals dbWithItems 1 cart1 (by decide)).1
  rw [h]
  norm_num [getItems, dbWithItems, sampleDb, itemA, itemB, cart1,
    getNumOr0_sofaSnapshot, sofa2, sofa3]

/-- The tags accepted by the dispatch in `add_item_to_cart`
(`main.py` lines 367-374): note the source's spelling `"matress"`. -/
def knownTag (t : String) : Bool :=
  t == "sofa" || t == "dining_table" || t == "matress"

/-- Whether the table selected by the tag contains a record with the
given id (the `session.get` of the dispatch). -/
def tagLookupIsSome (db : DB) (t : String) (fid : Int) : Bool :=
  if t == "sofa" then (db.sofas.find? (fun f => f.id == fid)).isSome
  else if t == "dining_table" then (db.dtables.find? (fun f => f.id == fid)).isSome
  else if t == "matress" then (db.mattresses.find? (fun f => f.id == fid)).isSome
  else false

/-- Observation: the call ended in a 404. -/
def isNotFoundRes {α : Type} : ApiResult α → Bool
  | ApiResult.err (ApiError.notFound _) => true
  | _ => false

/-- C3 counterexample: the cart exists and a mattress with id 5 exists,
yet `add_item` with the tag `"mattress"` — one of the claim's "three
known tags" — signals Invalid-Argument (400), because the code's tag is
spelled `"matress"`.  This refutes the claim that Invalid-Argument is
signalled exactly when the tag is not one of
"sofa" / "dining_table" / "mattress". -/
theorem C3_counterexample :
    (sampleDb.carts.find? (fun c => c.id == 1)).isSome = true ∧
    (sampleDb.mattresses.find? (fun m => m.id == 5)).isSome = true ∧
    addItemToCart sampleDb 1 "mattress" 5 1 =
      ApiResult.err (ApiError.badRequest "Invalid furniture type: mattress") :=
  ⟨by decide, by decide, by rfl⟩

/-- C3 as amended: with the tags the code actually accepts ("sofa",
"dining_table", "matress"), for a call on an existing cart:
Invalid-Argument is signalled exactly for unknown tags; a known tag
with no record of that id signals Not-Found; a known tag whose record
exists adds one line item. -/
theorem C3_amended (db : DB) (cid : Int) (ftype : String) (fid q : Int)
    (hc : (db.carts.find? (fun c => c.id == cid)).isSome = true) :
    (addItemToCart db cid ftype fid q =
        ApiResult.err (ApiError.badRequest ("Invalid furniture type: " ++ ftype)) ↔
      knownTag ftype = false) ∧
    (knownTag ftype = true → tagLookupIsSome db ftype fid = false →
      isNotFoundRes (addItemToCart db cid ftype fid q) = true) ∧
    (knownTag ftype = true → tagLookupIsSome db ftype fid = true →
      ∃ db1 r, addItemToCart db cid ftype fid q = ApiResult.ok (db1, r) ∧
        db1.cartItems.length = db.cartItems.length + 1) := by
  rw [Option.isSome_iff_exists] at hc
  obtain ⟨c, hc⟩ := hc
  by_cases h1 : ftype = "sofa"
  · subst h1
    refine ⟨?_, ?_, ?_⟩
    · cases hf : db.sofas.find? (fun f => f.id == fid) <;>
        simp [addItemToCart, resolveFurniture, hc, hf, knownTag]
    · intro _ hl
      cases hf : db.sofas.find? (fun f => f.id == fid) with
      | none => simp [addItemToCart, resolveFurniture, hc, hf, isNotFoundRes]
      | some f => simp [tagLookupIsSome, hf] at hl
    · intro _ hl
      cases hf : db.sofas.find? (fun f => f.id == fid) with
      | none => simp [tagLookupIsSome, hf] at hl
      | some f =>
        have hstep : addItemToCart db cid "sofa" fid q =
            ApiResult.ok ({ db with
              cartItems := db.cartItems ++ [⟨db.nextCartItemId, cid, "sofa", fid, q, sofaSnapshot f⟩],
              nextCartItemId := db.nextCartItemId + 1 },
            mkItemResponse ⟨db.nextCartItemId, cid, "sofa", fid, q, sofaSnapshot f⟩) := by
          simp [addItemToCart, resolveFurniture, hc, hf]
        exact ⟨_, _, hstep, by simp⟩
  · by_cases h2 : ftype = "dining_table"
    · subst h2
      refine ⟨?_, ?_, ?_⟩
      · cases hf : db.dtables.find? (fun f => f.id == fid) <;>
          simp [addItemToCart, resolveFurniture, hc, hf, knownTag]
      · intro _ hl
        cases hf : db.dtables.find? (fun f => f.id == fid) with
        | none => simp [addItemToCart, resolveFurniture, hc, hf, isNotFoundRes]
        | some f => simp [tagLookupIsSome, hf] at hl
      · intro _ hl
        cases hf : db.dtables.find? (fun f => f.id == fid) with
        | none => simp [tagLookupIsSome, hf] at hl
        | some f =>
          have hstep : addItemToCart db cid "dining_table" fid q =
              ApiResult.ok ({ db with
                cartItems := db.cartItems ++ [⟨db.nextCartItemId, cid, "dining_table", fid, q, tableSnapshot f⟩],
                nextCartItemId := db.nextCartItemId + 1 },
              mkItemResponse ⟨db.nextCartItemId, cid, "dining_table", fid, q, tableSnapshot f⟩) := by
            simp [addItemToCart, resolveFurniture, hc, hf]
          exact ⟨_, _, hstep, by simp⟩
    · by_cases h3 : ftype = "matress"
      · subst h3
        refine ⟨?_, ?_, ?_⟩
        · cases hf : db.mattresses.find? (fun f => f.id == fid) <;>
            simp [addItemToCart, resolveFurniture, hc, hf, knownTag]
        · intro _ hl
          cases hf : db.mattresses.find? (fun f => f.id == fid) with
          | none => simp [addItemToCart, resolveFurniture, hc, hf, isNotFoundRes]
          | some f => simp [tagLookupIsSome, hf] at hl
        · intro _ hl
          cases hf : db.mattresses.find? (fun f => f.id == fid) with
          | none => simp [tagLookupIsSome, hf] at hl
          | some f =>
            have hstep : addItemToCart db cid "matress" fid q =
                ApiResult.ok ({ db with
                  cartItems := db.cartItems ++ [⟨db.nextCartItemId, cid, "matress", fid, q, mattressSnapshot f⟩],
                  nextCartItemId := db.nextCartItemId + 1 },
                mkItemResponse ⟨db.nextCartItemId, cid, "matress", fid, q, mattressSnapshot f⟩) := by
              simp [addItemToCart, resolveFurniture, hc, hf]
            exact ⟨_, _, hstep, by simp⟩
      · have hk : knownTag ftype = false := by
          simp [knownTag, h1, h2, h3]
        refine ⟨?_, ?_, ?_⟩
        · simp [addItemToCart, resolveFurniture, hc, h1, h2, h3, hk]
        · intro hkt
          rw [hk] at hkt
          exact absurd hkt (by simp)
        · intro hkt
          rw [hk] at hkt
          exact absurd hkt (by simp)

/-- Witness for the amended C3: with the tag "mattress" — unknown to
the code, whose spelling is "matress" — the call is a 400 even though
cart 1 and mattress 5 exist. -/
theorem C3_witness :
    (addItemToCart sampleDb 1 "mattress" 5 1 =
        ApiResult.err (ApiError.badRequest "Invalid furniture type: mattress") ↔
      knownTag "mattress" = false) ∧
    (knownTag "mattress" = true → tagLookupIsSome sampleDb "mattress" 5 = false →
      isNotFoundRes (addItemToCart sampleDb 1 "mattress" 5 1) = true) ∧
    (knownTag "mattress" = true → tagLookupIsSome sampleDb "mattress" 5 = true →
      ∃ db1 r, addItemToCart sampleDb 1 "mattress" 5 1 = ApiResult.ok (db1, r) ∧
        db1.cartItems.length = sampleDb.cartItems.length + 1) :=
  C3_amended sampleDb 1 "mattress" 5 1 (by decide)

/-- C4: `delete_cart` on an existing cart succeeds, removes exactly the
line items owned by that cart (no orphan remains queryable), and
afterwards `list_items` (`GET /carts/{id}/items`) signals Not-Found;
on a missing cart `delete_cart` signals Not-Found. -/
theorem C4_delete_cart (db : DB) (cid : Int) :
    ((db.carts.find? (fun c => c.id == cid)).isSome = true →
      ∃ db' msg, deleteCart db cid = ApiResult.ok (db', msg) ∧
        db'.cartItems.filter (fun it => it.cart_id == cid) = [] ∧
        db'.cartItems = db.cartItems.filter (fun it => !(it.cart_id == cid)) ∧
        getCartItems db' cid = ApiResult.err (ApiError.notFound "Shopping cart not found")) ∧
    (db.carts.find? (fun c => c.id == cid) = none →
      deleteCart db cid = ApiResult.err (ApiError.notFound "Shopping cart not found")) := by
  constructor
  · intro hc
    rw [Option.isSome_iff_exists] at hc
    obtain ⟨c, hc⟩ := hc
    have hstep : deleteCart db cid = ApiResult.ok
        ({ db with
            cartItems := db.cartItems.filter (fun it => !(it.cart_id == cid))
            carts := db.carts.filter (fun c => !(c.id == cid)) },
         "Shopping cart with ID " ++ toString cid ++ " deleted successfully") := by
      simp [deleteCart, hc]
    refine ⟨_, _, hstep, ?_, rfl, ?_⟩
    · rw [List.filter_eq_nil_iff]
      intro it hit
      have := List.of_mem_filter hit
      simpa using this
    · have hnone : (db.carts.filter (fun c => !(c.id == cid))).find?
          (fun c => c.id == cid) = none := by
        rw [List.find?_eq_none]
        intro x hx
        have := List.of_mem_filter hx
        simpa using this
      simp [getCartItems, hnone]
  · intro hc
    simp [deleteCart, hc]

/-- Witness for C4: deleting cart 1 from the sample store with two
line items removes both items and makes the item listing a 404. -/
theorem C4_witness :
    ∃ db' msg, deleteCart dbWithItems 1 = ApiResult.ok (db', msg) ∧
      db'.cartItems.filter (fun it => it.cart_id == 1) = [] ∧
      db'.cartItems = dbWithItems.cartItems.filter (fun it => !(it.cart_id == 1)) ∧
      getCartItems db' 1 = ApiResult.err (ApiError.notFound "Shopping cart not found") :=
  (C4_delete_cart dbWithItems 1).1 (by decide)

/-- C5: catalog update has partial/PATCH semantics, for all three
variants: on an existing record, every field present in the payload is
overwritten with the payload value and every absent field keeps its
prior value (`Option.getD` states exactly that), and the only row that
changes is the addressed one. -/
theorem C5_update_patch_semantics :
    (∀ db sid s u db' s', db.sofas.find? (fun t => t.id == sid) = some s →
      updateSofa db sid u = ApiResult.ok (db', s') →
      (s'.id = u.id.getD s.id ∧ s'.name = u.name.getD s.name ∧
       s'.price = u.price.getD s.price ∧ s'.color = u.color.getD s.color ∧
       s'.material = u.material.getD s.material ∧
       s'.weight_kg = u.weight_kg.getD s.weight_kg ∧
       s'.date_added = u.date_added.getD s.date_added ∧
       s'.in_stock = u.in_stock.getD s.in_stock ∧
       s'.seats = u.seats.getD s.seats ∧
       s'.has_sleeper = u.has_sleeper.getD s.has_sleeper ∧
       s'.fabric_type = u.fabric_type.getD s.fabric_type) ∧
      db'.sofas = db.sofas.map (fun t => if t.id == sid then s' else t)) ∧
    (∀ db sid s u db' s', db.dtables.find? (fun t => t.id == sid) = some s →
      updateDiningTable db sid u = ApiResult.ok (db', s') →
      (s'.id = u.id.getD s.id ∧ s'.name = u.name.getD s.name ∧
       s'.price = u.price.getD s.price ∧ s'.color = u.color.getD s.color ∧
       s'.material = u.material.getD s.material ∧
       s'.weight_kg = u.weight_kg.getD s.weight_kg ∧
       s'.date_added = u.date_added.getD s.date_added ∧
       s'.in_stock = u.in_stock.getD s.in_stock ∧
       s'.seats = u.seats.getD s.seats ∧
       s'.shape = u.shape.getD s.shape ∧
       s'.extendable = u.extendable.getD s.extendable) ∧
      db'.dtables = db.dtables.map (fun t => if t.id == sid then s' else t)) ∧
    (∀ db sid s u db' s', db.mattresses.find? (fun t => t.id == sid) = some s →
      updateMattress db sid u = ApiResult.ok (db', s') →
      (s'.id = u.id.getD s.id ∧ s'.name = u.name.getD s.name ∧
       s'.price = u.price.getD s.price ∧ s'.color = u.color.getD s.color ∧
       s'.material = u.material.getD s.material ∧
       s'.weight_kg = u.weight_kg.getD s.weight_kg ∧
       s'.date_added = u.date_added.getD s.date_added ∧
       s'.in_stock = u.in_stock.getD s.in_stock ∧
       s'.size = u.size.getD s.size ∧
       s'.firmness = u.firmness.getD s.firmness ∧
       s'.thickness_cm = u.thickness_cm.getD s.thickness_cm) ∧
      db'.mattresses = db.mattresses.map (fun t => if t.id == sid then s' else t)) := by
  refine ⟨?_, ?_, ?_⟩
  · intro db sid s u db' s' h1 h2
    unfold updateSofa at h2
    split at h2
    · exact ApiResult.noConfusion h2
    · rename_i s0 hf
      rw [h1] at hf
      injection hf with hss
      subst hss
      simp only [ApiResult.ok.injEq, Prod.mk.injEq] at h2
      obtain ⟨hdb, hs'⟩ := h2
      subst hdb
      subst hs'
      exact ⟨by simp [applySofaUpdate], rfl⟩
  · intro db sid s u db' s' h1 h2
    unfold updateDiningTable at h2
    split at h2
    · exact ApiResult.noConfusion h2
    · rename_i s0 hf
      rw [h1] at hf
      injection hf with hss
      subst hss
      simp only [ApiResult.ok.injEq, Prod.mk.injEq] at h2
      obtain ⟨hdb, hs'⟩ := h2
      subst hdb
      subst hs'
      exact ⟨by simp [applyTableUpdate], rfl⟩
  · intro db sid s u db' s' h1 h2
    unfold updateMattress at h2
    split at h2
    · exact ApiResult.noConfusion h2
    · rename_i s0 hf
      rw [h1] at hf
      injection hf with hss
      subst hss
      simp only [ApiResult.ok.injEq, Prod.mk.injEq] at h2
      obtain ⟨hdb, hs'⟩ := h2
      subst hdb
      subst hs'
      exact ⟨by simp [applyMattressUpdate], rfl⟩

/-- Witness for C5, the spec's example `update(id, {price: X})`:
updating `sofa1` (id 1) with a body that only sets `price := 600`
yields a record identical to `sofa1` except for the price. -/
theorem C5_witness :
    ((sofa600.id = upd600.id.getD sofa1.id ∧
      sofa600.name = upd600.name.getD sofa1.name ∧
      sofa600.price = upd600.price.getD sofa1.price ∧
      sofa600.color = upd600.color.getD sofa1.color ∧
      sofa600.material = upd600.material.getD sofa1.material ∧
      sofa600.weight_kg = upd600.weight_kg.getD sofa1.weight_kg ∧
      sofa600.date_added = upd600.date_added.getD sofa1.date_added ∧
      sofa600.in_stock = upd600.in_stock.getD sofa1.in_stock ∧
      sofa600.seats = upd600.seats.getD sofa1.seats ∧
      sofa600.has_sleeper = upd600.has_sleeper.getD sofa1.has_sleeper ∧
      sofa600.fabric_type = upd600.fabric_type.getD sofa1.fabric_type) ∧
     exDb2.sofas = exDb1.sofas.map (fun t => if t.id == 1 then sofa600 else t)) ∧
    sofa600 = { sofa1 with price := 600 } :=
  ⟨C5_update_patch_semantics.1 exDb1 1 sofa1 upd600 exDb2 sofa600
      (by decide) (by rfl),
   by decide⟩

/-- C6 counterexample: a Sofa list call with `material` supplied as the
empty string returns every sofa — including ones whose material is not
`""` — although the claim's reading (every supplied filter imposes its
equality predicate, `sofaSpecPred`) would return none of them. -/
theorem C6_counterexample :
    readSofas sampleDb 0 100 (some "") none none none = [sofa1, sofa2, sofa3] ∧
    sampleDb.sofas.filter (sofaSpecPred (some "") none none none) = [] ∧
    sofa1.material ≠ "" := by
  refine ⟨by rfl, by rfl, by decide⟩

/-- C6 as amended: for every combination of supplied filters in which
the `material` filter, if supplied, is non-empty (Python truthiness
makes an empty-string material impose no constraint), the Sofa list
call returns exactly the records satisfying every supplied predicate,
provided the matches fit inside the page (`skip = 0`,
`limit` at least the number of matches). -/
theorem C6_amended (db : DB) (limit : Nat) (material : Option String)
    (min_price max_price : Option Rat) (has_sleeper : Option Bool)
    (hm : ∀ m, material = some m → m ≠ "")
    (hlen : (db.sofas.filter
      (sofaSpecPred material min_price max_price has_sleeper)).length ≤ limit) :
    readSofas db 0 limit material min_price max_price has_sleeper =
      db.sofas.filter (sofaSpecPred material min_price max_price has_sleeper) := by
  have hp : ∀ s ∈ db.sofas,
      sofaRowPred material min_price max_price has_sleeper s =
      sofaSpecPred material min_price max_price has_sleeper s := by
    intro s _
    unfold sofaRowPred sofaSpecPred
    cases material with
    | none => rfl
    | some m =>
      have hne : m ≠ "" := hm m rfl
      have hb : (m == "") = false := by simpa using hne
      simp [hb]
  rw [readSofas, List.filter_congr hp, List.drop_zero]
  exact List.take_of_length_le hlen

/-- Witness for the amended C6, the spec's example: material "Leather"
with min_price 100 returns exactly the sofas satisfying both
predicates (`sofa1` at 500 and `sofa3` at 250, not the Wool `sofa2`). -/
theorem C6_witness :
    readSofas sampleDb 0 100 (some "Leather") (some 100) none none =
      sampleDb.sofas.filter (sofaSpecPred (some "Leather") (some 100) none none) ∧
    sampleDb.sofas.filter (sofaSpecPred (some "Leather") (some 100) none none) =
      [sofa1, sofa3] :=
  ⟨C6_amended sampleDb 100 (some "Leather") (some 100) none none
      (by intro m h; injection h with h2; subst h2; decide)
      (by decide),
   by decide⟩

/-- A creation payload that omits `date_added`, `in_stock` and
`has_sleeper`. -/
def payload7 : SofaCreate :=
  { name := "POANG", price := 120, color := "Black", material := "Leather"
    weight_kg := 30, seats := 1, fabric_type := "Mesh" }

/-- C7 evaluation: `create` then `get(id)` does return the input plus
the assigned id, and `in_stock` defaults to `true`; but an omitted
`date_added` is filled with the day `date.today()` was evaluated at
class-definition (module import) time — here day 0 — NOT the creation
date.  A sofa created on any later day (say day 1) still gets day 0.
The last two universally quantified conjuncts show the default is the
class-load day for every store, payload and load day, independent of
when the request happens. -/
theorem C7_create_defaults :
    (createSofa 0 sampleDb payload7).2.id = 4 ∧
    readSofa (createSofa 0 sampleDb payload7).1 4 =
      ApiResult.ok (createSofa 0 sampleDb payload7).2 ∧
    (createSofa 0 sampleDb payload7).2.name = payload7.name ∧
    (createSofa 0 sampleDb payload7).2.price = payload7.price ∧
    (createSofa 0 sampleDb payload7).2.color = payload7.color ∧
    (createSofa 0 sampleDb payload7).2.material = payload7.material ∧
    (createSofa 0 sampleDb payload7).2.weight_kg = payload7.weight_kg ∧
    (createSofa 0 sampleDb payload7).2.seats = payload7.seats ∧
    (createSofa 0 sampleDb payload7).2.fabric_type = payload7.fabric_type ∧
    (createSofa 0 sampleDb payload7).2.in_stock = true ∧
    (createSofa 0 sampleDb payload7).2.date_added = 0 ∧
    (createSofa 0 sampleDb payload7).2.date_added ≠ 1 ∧
    (∀ load : Int, ∀ db : DB, ∀ p : SofaCreate,
      ((createSofa load db { p with date_added := none }).2).date_added = load) ∧
    (∀ load : Int, ∀ db : DB, ∀ p : SofaCreate,
      ((createSofa load db { p with in_stock := none }).2).in_stock = true) := by
  refine ⟨by decide, by decide, by decide, by decide, by decide, by decide,
    by decide, by decide, by decide, by decide, by decide, by decide,
    fun load db p => rfl, fun load db p => rfl⟩

/-- `itemA` after its quantity is overwritten with 0. -/
def itemA0 : CartItem := { itemA with quantity := 0 }

/-- The sample store after `update_cart_item(cart 1, item 10, 0)`. -/
def dbA0 : DB := { dbWithItems with cartItems := [itemA0, itemB] }

/-- C8 counterexample: `update_item_quantity` happily stores quantity 0
— the call succeeds and the stored line item ends with a non-positive
quantity, refuting the invariant that every line item's quantity is a
positive integer after `update_item_quantity`. -/
theorem C8_counterexample :
    updateCartItem dbWithItems 1 10 0 = ApiResult.ok (dbA0, mkItemResponse itemA0) ∧
    (mkItemResponse itemA0).quantity = 0 ∧
    dbA0.cartItems.find? (fun it => it.id == 10) = some itemA0 ∧
    ¬(0 < itemA0.quantity) := by
  refine ⟨by rfl, by rfl, by decide, by decide⟩

/-- Updating the quantity of the row `find?` locates commutes with
`find?`: the first row with the given id afterwards carries the new
quantity. -/
theorem find?_map_update_quantity (l : List CartItem) (iid q : Int) (it : CartItem)
    (h : l.find? (fun j => j.id == iid) = some it) :
    (l.map (fun j => if j.id == iid then { j with quantity := q } else j)).find?
      (fun j => j.id == iid) = some { it with quantity := q } := by
  induction l with
  | nil => simp at h
  | cons a l ih =>
    rw [List.map_cons]
    by_cases ha : (a.id == iid) = true
    · rw [List.find?_cons_of_pos (p := fun j : CartItem => j.id == iid) _ ha] at h
      injection h with h2
      subst h2
      rw [if_pos ha]
      exact List.find?_cons_of_pos (p := fun j : CartItem => j.id == iid) _ ha
    · rw [List.find?_cons_of_neg (p := fun j : CartItem => j.id == iid) _ (by simp [ha])] at h
      rw [if_neg (by simp [ha]),
        List.find?_cons_of_neg (p := fun j : CartItem => j.id == iid) _ (by simp [ha])]
      exact ih h

/-- C8 as amended: quantity defaults to 1 (the mirrored Python default
argument) but is otherwise stored exactly as supplied, with no
positivity validation: `add_item` creates the line with the supplied
quantity and `update_item_quantity` overwrites with the supplied
value, zero and negative values included. -/
theorem C8_quantity_semantics :
    (∀ db cid ftype fid q db1 r,
      addItemToCart db cid ftype fid q = ApiResult.ok (db1, r) →
      r.quantity = q ∧ ∃ it, db1.cartItems = db.cartItems ++ [it] ∧ it.quantity = q) ∧
    (∀ db cid iid q db' r,
      updateCartItem db cid iid q = ApiResult.ok (db', r) →
      r.quantity = q ∧
      ∃ it', db'.cartItems.find? (fun j => j.id == iid) = some it' ∧ it'.quantity = q) := by
  constructor
  · intro db cid ftype fid q db1 r h
    unfold addItemToCart at h
    split at h
    · exact ApiResult.noConfusion h
    · split at h
      · exact ApiResult.noConfusion h
      · simp only [ApiResult.ok.injEq, Prod.mk.injEq] at h
        obtain ⟨hdb, hr⟩ := h
        subst hdb
        subst hr
        exact ⟨rfl, _, rfl, rfl⟩
  · intro db cid iid q db' r h
    unfold updateCartItem at h
    split at h
    · exact ApiResult.noConfusion h
    · split at h
      · exact ApiResult.noConfusion h
      · rename_i it hf
        split at h
        · simp only [ApiResult.ok.injEq, Prod.mk.injEq] at h
          obtain ⟨hdb, hr⟩ := h
          subst hdb
          subst hr
          refine ⟨rfl, { it with quantity := q }, ?_, rfl⟩
          exact find?_map_update_quantity db.cartItems iid q it hf
        · exact ApiResult.noConfusion h

/-- `itemA` after its quantity is overwritten with 5. -/
def itemA5 : CartItem := { itemA with quantity := 5 }

/-- The sample store after `update_cart_item(cart 1, item 10, 5)`. -/
def dbA5 : DB := { dbWithItems with cartItems := [itemA5, itemB] }

/-- Witness for the amended C8: updating item 10's quantity to 5 stores
and returns exactly 5. -/
theorem C8_witness :
    (mkItemResponse itemA5).quantity = 5 ∧
    ∃ it', dbA5.cartItems.find? (fun j => j.id == 10) = some it' ∧ it'.quantity = 5 :=
  C8_quantity_semantics.2 dbWithItems 1 10 5 dbA5 (mkItemResponse itemA5) (by rfl)

/-- C9: adding the same `(furniture_type, furniture_id)` to the same
cart twice creates two distinct line items — consecutive auto-increment
ids — each carrying its own quantity, with no merging. -/
theorem C9_no_merge (db db1 db2 : DB) (cid : Int) (ftype : String)
    (fid q1 q2 : Int) (r1 r2 : ItemResponse)
    (h1 : addItemToCart db cid ftype fid q1 = ApiResult.ok (db1, r1))
    (h2 : addItemToCart db1 cid ftype fid q2 = ApiResult.ok (db2, r2)) :
    r1.id ≠ r2.id ∧
    ∃ it1 it2, db2.cartItems = db.cartItems ++ [it1, it2] ∧
      it1.id ≠ it2.id ∧ it1.quantity = q1 ∧ it2.quantity = q2 ∧
      it1.furniture_type = ftype ∧ it2.furniture_type = ftype ∧
      it1.furniture_id = fid ∧ it2.furniture_id = fid := by
  unfold addItemToCart at h1
  split at h1
  · exact ApiResult.noConfusion h1
  · split at h1
    · exact ApiResult.noConfusion h1
    · rename_i fdata1 hres1
      simp only [ApiResult.ok.injEq, Prod.mk.injEq] at h1
      obtain ⟨hdb1, hr1⟩ := h1
      subst hdb1
      subst hr1
      unfold addItemToCart at h2
      split at h2
      · exact ApiResult.noConfusion h2
      · split at h2
        · exact ApiResult.noConfusion h2
        · rename_i fdata2 hres2
          simp only [ApiResult.ok.injEq, Prod.mk.injEq] at h2
          obtain ⟨hdb2, hr2⟩ := h2
          subst hdb2
          subst hr2
          constructor
          · show db.nextCartItemId ≠ db.nextCartItemId + 1
            omega
          · refine ⟨⟨db.nextCartItemId, cid, ftype, fid, q1, fdata1⟩,
              ⟨db.nextCartItemId + 1, cid, ftype, fid, q2, fdata2⟩,
              by simp, ?_, rfl, rfl, rfl, rfl, rfl, rfl⟩
            show db.nextCartItemId ≠ db.nextCartItemId + 1
            omega

/-- The second line item created by adding `sofa1` again, quantity 2. -/
def exItem2 : CartItem :=
  { id := 11, cart_id := 1, furniture_type := "sofa", furniture_id := 1
    quantity := 2, furniture_data := sofaSnapshot sofa1 }

/-- The sample store after adding `sofa1` twice. -/
def exDb9 : DB :=
  { sampleDb with cartItems := [exItem, exItem2], nextCartItemId := 12 }

/-- Witness for C9: adding sofa 1 twice to cart 1 yields two line items
with ids 10 and 11 and quantities 1 and 2. -/
theorem C9_witness :
    (mkItemResponse exItem).id ≠ (mkItemResponse exItem2).id ∧
    ∃ it1 it2, exDb9.cartItems = sampleDb.cartItems ++ [it1, it2] ∧
      it1.id ≠ it2.id ∧ it1.quantity = 1 ∧ it2.quantity = 2 ∧
      it1.furniture_type = "sofa" ∧ it2.furniture_type = "sofa" ∧
      it1.furniture_id = 1 ∧ it2.furniture_id = 1 :=
  C9_no_merge sampleDb exDb1 exDb9 1 "sofa" 1 1 2
    (mkItemResponse exItem) (mkItemResponse exItem2) (by rfl) (by rfl)

/-- C10: for every catalog list call, `material` supplied as the empty
string behaves exactly like omitting the filter (all three variants),
whereas `min_price = 0.0` and `max_price = 0.0` DO apply their price
predicates (shown on the sofa list: the result is exactly the
price-filtered, paginated catalog). -/
theorem C10_empty_string_vs_zero_price :
    (∀ (db : DB) (skip limit : Nat) (minp maxp : Option Rat) (sl : Option Bool),
      readSofas db skip limit (some "") minp maxp sl =
      readSofas db skip limit none minp maxp sl) ∧
    (∀ (db : DB) (skip limit : Nat) (minp maxp : Option Rat)
        (shape : Option String) (ext : Option Bool),
      readDiningTables db skip limit (some "") minp maxp shape ext =
      readDiningTables db skip limit none minp maxp shape ext) ∧
    (∀ (db : DB) (skip limit : Nat) (minp maxp : Option Rat)
        (size firm : Option String),
      readMattresses db skip limit (some "") minp maxp size firm =
      readMattresses db skip limit none minp maxp size firm) ∧
    (∀ (db : DB) (skip limit : Nat),
      readSofas db skip limit none (some 0) none none =
      ((db.sofas.filter (fun s => decide ((0 : Rat) ≤ s.price))).drop skip).take limit) ∧
    (∀ (db : DB) (skip limit : Nat),
      readSofas db skip limit none none (some 0) none =
      ((db.sofas.filter (fun s => decide (s.price ≤ (0 : Rat)))).drop skip).take limit) := by
  refine ⟨fun db skip limit minp maxp sl => rfl,
    fun db skip limit minp maxp shape ext => rfl,
    fun db skip limit minp maxp size firm => rfl, ?_, ?_⟩
  · intro db skip limit
    have hp : ∀ s ∈ db.sofas,
        sofaRowPred none (some 0) none none s = decide ((0 : Rat) ≤ s.price) :=
      fun s _ => by simp [sofaRowPred]
    rw [readSofas, List.filter_congr hp]
  · intro db skip limit
    have hp : ∀ s ∈ db.sofas,
        sofaRowPred none none (some 0) none s = decide (s.price ≤ (0 : Rat)) :=
      fun s _ => by simp [sofaRowPred]
    rw [readSofas, List.filter_congr hp]
